import Mathlib

/-!
# Verification of the Rust examples `01_hello_world.rs` and `02_variables.rs`

Shallow embedding of the two example programs.  Each program is a
straight-line sequence of statements: `let` declarations (which shadow),
assignments to mutable bindings, and `println!` calls.  The store is a
list of name/value bindings, newest first, so shadowing is visible as a
new entry pushed on top of the old one, while assignment overwrites the
topmost entry for the name in place.  Evaluation runs in `Option`:
`none` models a Rust panic (e.g. debug-mode i32 overflow) or a
compile-time-impossible state such as an unbound variable; the examples
are proved to never produce `none`.  Rust `i32` values are modelled as
`Int` together with an explicit range check on arithmetic (all values in
the programs are tiny, so no wraparound arises); Rust `usize` values as
`Nat`; `str::len` as `String.utf8ByteSize`, which is the UTF-8 byte
length that Rust's `len` returns.
-/

/-- A runtime value: Rust `i32`, `usize`, or string slice.
Separate constructors record the (fixed) Rust type of each value. -/
inductive Value where
  | vI32 (n : Int)
  | vUsize (n : Nat)
  | vStr (s : String)
  deriving DecidableEq, Repr

/-- The store: name/value bindings, newest first.  A shadowing `let`
pushes a new pair; earlier pairs stay in the list untouched. -/
abbrev Store := List (String × Value)

/-- `let x = v;` — push a fresh binding, shadowing any earlier one. -/
def declare (x : String) (v : Value) (σ : Store) : Store :=
  (x, v) :: σ

/-- Read the current (innermost) binding of `x`. -/
def lookup (x : String) : Store → Option Value
  | [] => none
  | (y, v) :: σ => if y = x then some v else lookup x σ

/-- `x = v;` — overwrite the innermost binding of `x` in place,
leaving every other binding untouched. -/
def assign (x : String) (v : Value) : Store → Store
  | [] => []
  | (y, w) :: σ => if y = x then (x, v) :: σ else (y, w) :: assign x v σ

/-- All values ever bound to `x` that are still in the store,
newest first. -/
def bindingsOf (x : String) (σ : Store) : List Value :=
  (σ.filter (fun p => p.1 == x)).map Prod.snd

/-- `i32::MIN`. -/
def I32_MIN : Int := -(2 ^ 31)

/-- `i32::MAX`. -/
def I32_MAX : Int := 2 ^ 31 - 1

/-- Debug-mode `i32` addition: panics (`none`) on overflow. -/
def i32CheckedAdd (a b : Int) : Option Int :=
  let r := a + b
  if I32_MIN ≤ r ∧ r ≤ I32_MAX then some r else none

/-- Debug-mode `i32` multiplication: panics (`none`) on overflow. -/
def i32CheckedMul (a b : Int) : Option Int :=
  let r := a * b
  if I32_MIN ≤ r ∧ r ≤ I32_MAX then some r else none

/-- Rust `str::len`: the UTF-8 byte length of the string. -/
def rustStrLen (s : String) : Nat :=
  s.utf8ByteSize

/-- Expressions occurring in the examples. -/
inductive Expr where
  | litI32 (n : Int)
  | litStr (s : String)
  | var (x : String)
  | add (a b : Expr)
  | mul (a b : Expr)
  | lenOf (e : Expr)
  deriving DecidableEq, Repr

/-- Expression evaluation.  `none` models a panic (i32 overflow in a
debug build) or an ill-typed/unbound access, which the Rust compiler
would reject; the embedded programs never produce it. -/
def evalE (σ : Store) : Expr → Option Value
  | .litI32 n => some (.vI32 n)
  | .litStr s => some (.vStr s)
  | .var x => lookup x σ
  | .add a b =>
    match evalE σ a, evalE σ b with
    | some (.vI32 m), some (.vI32 n) => (i32CheckedAdd m n).map .vI32
    | _, _ => none
  | .mul a b =>
    match evalE σ a, evalE σ b with
    | some (.vI32 m), some (.vI32 n) => (i32CheckedMul m n).map .vI32
    | _, _ => none
  | .lenOf e =>
    match evalE σ e with
    | some (.vStr s) => some (.vUsize (rustStrLen s))
    | _ => none

/-- How `{}` formatting renders a value (Rust `Display`). -/
def renderValue : Value → String
  | .vI32 n => toString n
  | .vUsize n => toString n
  | .vStr s => s

/-- Statements occurring in the examples. -/
inductive Stmt where
  | letDecl (x : String) (e : Expr)
  | assignTo (x : String) (e : Expr)
  | printlnLit (s : String)
  | printlnFmt (front : String) (e : Expr)
  deriving DecidableEq, Repr

/-- Machine state: the store and the lines written so far. -/
structure PState where
  store : Store
  out : List String
  deriving DecidableEq, Repr

/-- Execute one statement. -/
def execStmt (st : PState) : Stmt → Option PState
  | .letDecl x e =>
    (evalE st.store e).map fun v => { st with store := declare x v st.store }
  | .assignTo x e =>
    (evalE st.store e).map fun v => { st with store := assign x v st.store }
  | .printlnLit s =>
    some { st with out := st.out ++ [s] }
  | .printlnFmt front e =>
    (evalE st.store e).map fun v =>
      { st with out := st.out ++ [front ++ renderValue v] }

/-- Execute a statement list from a given state. -/
def execProg (prog : List Stmt) (st : PState) : Option PState :=
  prog.foldlM execStmt st

/-- The process environment an invocation receives.  Neither example
reads its arguments or environment variables, so `run` ignores it. -/
structure ProcEnv where
  args : List String
  vars : List (String × String)

/-- Run a program as a process: start from the empty state; the
environment is never read.  `none` is a panic (exit failure). -/
def run (prog : List Stmt) (_env : ProcEnv) : Option PState :=
  execProg prog { store := [], out := [] }

/-- Process exit code: 0 on success, 101 on panic (Rust's default). -/
def exitCode (r : Option PState) : Nat :=
  match r with
  | some _ => 0
  | none => 101

/-- `src/rust/examples/01_hello_world.rs`, `fn main`. -/
def helloWorldProg : List Stmt :=
  [.printlnLit "Hello, World!"]

/-- The string literal of line 26 of `02_variables.rs`:
`let spaces = "   ";`. -/
def spacesLit : String := "   "

/-- `src/rust/examples/02_variables.rs`, `fn main`, statement by
statement in source order. -/
def variablesProg : List Stmt :=
  [ .letDecl "x" (.litI32 5),
    .printlnFmt "The value of x is: " (.var "x"),
    .letDecl "y" (.litI32 10),
    .printlnFmt "The value of y is: " (.var "y"),
    .assignTo "y" (.litI32 15),
    .printlnFmt "The new value of y is: " (.var "y"),
    .letDecl "z" (.litI32 5),
    .letDecl "z" (.add (.var "z") (.litI32 1)),
    .letDecl "z" (.mul (.var "z") (.litI32 2)),
    .printlnFmt "The value of z is: " (.var "z"),
    .letDecl "spaces" (.litStr spacesLit),
    .letDecl "spaces" (.lenOf (.var "spaces")),
    .printlnFmt "Number of spaces: " (.var "spaces") ]

/-- A default invocation environment (empty argv and env). -/
def defaultEnv : ProcEnv := { args := [], vars := [] }

/-- Result of running the hello-world example. -/
def helloWorldRun : Option PState := run helloWorldProg defaultEnv

/-- Result of running the variables example. -/
def variablesRun : Option PState := run variablesProg defaultEnv

/-- The state after the first `n` statements of the variables example
(defaulting to the empty state on a panic, which is proved absent). -/
def variablesStateAfter (n : Nat) : PState :=
  (execProg (variablesProg.take n) { store := [], out := [] }).getD
    { store := [], out := [] }

/-- The final state of the variables example. -/
def variablesFinal : PState := variablesStateAfter variablesProg.length

/-- One line of text followed by a newline terminator, as `println!`
sends it to standard output. -/
def renderLines (lines : List String) : String :=
  lines.foldl (fun acc l => acc ++ l ++ "\n") ""

/-- Any character below code point 128 (ASCII) occupies one UTF-8 byte. -/
theorem utf8Size_of_ascii (c : Char) (h : c.toNat < 128) : c.utf8Size = 1 := by
  unfold Char.utf8Size
  rw [if_pos]
  show c.val ≤ 0x7F
  rw [UInt32.le_def, BitVec.le_def]
  have e1 : c.val.toBitVec.toNat = c.val.toNat := rfl
  have e2 : (UInt32.toBitVec 127).toNat = 127 := rfl
  have : c.val.toNat < 128 := h
  omega

/-- For an all-ASCII string the UTF-8 byte length equals the character
count. -/
theorem utf8ByteSize_eq_length_of_ascii (s : String)
    (h : ∀ c ∈ s.data, c.toNat < 128) : s.utf8ByteSize = s.length := by
  obtain ⟨l⟩ := s
  show String.utf8ByteSize.go l = l.length
  induction l with
  | nil => rfl
  | cons c cs ih =>
    have hc : c.utf8Size = 1 := utf8Size_of_ascii c (h c (List.mem_cons_self c cs))
    have ih' := ih (fun d hd => h d (List.mem_cons_of_mem c hd))
    show String.utf8ByteSize.go cs + c.utf8Size = cs.length + 1
    rw [hc, ih']

/-- C1: running the variables example writes exactly five lines to
standard output, in this order: "The value of x is: 5",
"The value of y is: 10", "The new value of y is: 15",
"The value of z is: 12", "Number of spaces: 3", and nothing else. -/
theorem variables_output_exact :
    variablesRun.map PState.out = some
      [ "The value of x is: 5",
        "The value of y is: 10",
        "The new value of y is: 15",
        "The value of z is: 12",
        "Number of spaces: 3" ] := by
  decide

/-- C2: the shadow-chain value z printed by the variables example
equals ((5) + 1) * 2 = 12: the first binding holds 5, the second one
applies the addition giving 6, the third one applies the
multiplication giving 12, and the printed line reports 12. -/
theorem z_shadow_chain_value :
    lookup "z" (variablesStateAfter 7).store = some (.vI32 5)
    ∧ lookup "z" (variablesStateAfter 8).store = some (.vI32 ((5 : Int) + 1))
    ∧ lookup "z" (variablesStateAfter 9).store = some (.vI32 (((5 : Int) + 1) * 2))
    ∧ (((5 : Int) + 1) * 2 = 12)
    ∧ variablesFinal.out[3]? = some "The value of z is: 12" := by
  decide

/-- C3: the text literal of the length query contains exactly three
space characters, and the final output line reports length 3. -/
theorem spaces_literal_three_spaces :
    spacesLit.data.count ' ' = 3
    ∧ spacesLit.data.length = 3
    ∧ rustStrLen spacesLit = 3
    ∧ variablesFinal.out[4]? = some "Number of spaces: 3" := by
  decide

/-- C4: the hello-world example writes the literal text
"Hello, World!" followed by a line terminator to standard output —
that single line and nothing else — and exits successfully. -/
theorem hello_world_output :
    helloWorldRun = some { store := [], out := ["Hello, World!"] }
    ∧ (helloWorldRun.map (fun st => renderLines st.out)) = some "Hello, World!\n"
    ∧ exitCode helloWorldRun = 0 := by
  refine ⟨by decide, ?_, rfl⟩
  rfl

/-- C5: both examples are deterministic: any two invocations, whatever
their process environments, produce identical results and identical
bytes on standard output. -/
theorem examples_deterministic (e₁ e₂ : ProcEnv) :
    run helloWorldProg e₁ = run helloWorldProg e₂
    ∧ run variablesProg e₁ = run variablesProg e₂
    ∧ (run helloWorldProg e₁).map (fun st => renderLines st.out)
        = (run helloWorldProg e₂).map (fun st => renderLines st.out)
    ∧ (run variablesProg e₁).map (fun st => renderLines st.out)
        = (run variablesProg e₂).map (fun st => renderLines st.out) :=
  ⟨rfl, rfl, rfl, rfl⟩

/-- C6: for every invocation of either example the exit status is
success (exit code 0); neither run ever produces the panic result. -/
theorem exit_always_success (e : ProcEnv) :
    exitCode (run helloWorldProg e) = 0
    ∧ exitCode (run variablesProg e) = 0
    ∧ (run helloWorldProg e).isSome = true
    ∧ (run variablesProg e).isSome = true :=
  ⟨rfl, rfl, rfl, rfl⟩

/-- C7: every operation in the examples is total over its fixed
inputs: both full runs succeed (no `none`, i.e. no panic branch is
reached), and in particular each checked arithmetic step of the z
chain and the length query return values rather than overflow. -/
theorem all_operations_total :
    variablesRun.isSome = true
    ∧ helloWorldRun.isSome = true
    ∧ i32CheckedAdd 5 1 = some 6
    ∧ i32CheckedMul 6 2 = some 12
    ∧ evalE (variablesStateAfter 11).store (.lenOf (.var "spaces"))
        = some (.vUsize 3)
    ∧ variablesRun = some variablesFinal := by
  decide

/-- C8: shadowing never mutates an earlier binding: a `let` only
pushes a new pair, so every earlier binding survives unchanged; in the
final store of the variables example the z chain still holds its
earlier values 6 and 5 beneath 12, and the spaces chain still holds
the string literal (a different type) beneath the numeric length. -/
theorem shadowing_no_mutation (x : String) (v : Value) (σ : Store)
    (p : String × Value) (hp : p ∈ σ) :
    p ∈ declare x v σ
    ∧ (declare x v σ).tail = σ
    ∧ bindingsOf "z" variablesFinal.store = [.vI32 12, .vI32 6, .vI32 5]
    ∧ bindingsOf "spaces" variablesFinal.store = [.vUsize 3, .vStr "   "] :=
  ⟨List.mem_cons_of_mem _ hp, rfl, by decide, by decide⟩

/-- Witness for C8 at a concrete earlier binding: the first z binding
(holding 5) survives the shadowing declaration of the second z. -/
theorem shadowing_no_mutation_witness :
    ("z", Value.vI32 5) ∈ declare "z" (Value.vI32 6) [("z", Value.vI32 5)]
    ∧ (declare "z" (Value.vI32 6) [("z", Value.vI32 5)]).tail = [("z", Value.vI32 5)]
    ∧ bindingsOf "z" variablesFinal.store = [.vI32 12, .vI32 6, .vI32 5]
    ∧ bindingsOf "spaces" variablesFinal.store = [.vUsize 3, .vStr "   "] :=
  shadowing_no_mutation "z" (Value.vI32 6) [("z", Value.vI32 5)]
    ("z", Value.vI32 5) (by decide)

/-- C9: the reassignment y = 15 changes only the binding y: looking up
any other name is unaffected by an assignment (general frame lemma),
the concrete store after the assignment is exactly the store before it
with y overwritten, x still holds 5 on both sides, and y holds an i32
before (10) and after (15), so its type is unchanged. -/
theorem assign_frame (w x : String) (v : Value) (σ : Store) (h : w ≠ x) :
    lookup w (assign x v σ) = lookup w σ
    ∧ (variablesStateAfter 5).store
        = assign "y" (.vI32 15) (variablesStateAfter 4).store
    ∧ lookup "x" (variablesStateAfter 4).store = some (.vI32 5)
    ∧ lookup "x" (variablesStateAfter 5).store = some (.vI32 5)
    ∧ lookup "y" (variablesStateAfter 4).store = some (.vI32 10)
    ∧ lookup "y" (variablesStateAfter 5).store = some (.vI32 15) := by
  refine ⟨?_, by decide, by decide, by decide, by decide, by decide⟩
  induction σ with
  | nil => rfl
  | cons hd tl ih =>
    obtain ⟨y, wv⟩ := hd
    by_cases hyx : y = x
    · subst hyx
      have hxw : ¬ y = w := fun hh => h hh.symm
      simp [assign, lookup, hxw]
    · by_cases hyw : y = w
      · subst hyw
        simp [assign, lookup, hyx]
      · simp [assign, lookup, hyx, hyw, ih]

/-- Witness for C9 at the concrete reassignment: looking up x across
the y = 15 assignment in the store of the variables example. -/
theorem assign_frame_witness :
    (lookup "x" (assign "y" (.vI32 15) (variablesStateAfter 4).store)
        = lookup "x" (variablesStateAfter 4).store)
    ∧ (variablesStateAfter 5).store
        = assign "y" (.vI32 15) (variablesStateAfter 4).store
    ∧ lookup "x" (variablesStateAfter 4).store = some (.vI32 5)
    ∧ lookup "x" (variablesStateAfter 5).store = some (.vI32 5)
    ∧ lookup "y" (variablesStateAfter 4).store = some (.vI32 10)
    ∧ lookup "y" (variablesStateAfter 5).store = some (.vI32 15) :=
  assign_frame "x" "y" (.vI32 15) (variablesStateAfter 4).store (by decide)

/-- C10: the length query of the variables example is the UTF-8 byte
length, not the character count: the embedded `len` is the byte
length, byte length and character count coincide for any all-ASCII
string, and the literal "   " is all ASCII spaces, which is why both
equal 3 here. -/
theorem len_is_utf8_byte_length (s : String) (h : ∀ c ∈ s.data, c.toNat < 128) :
    rustStrLen s = s.utf8ByteSize
    ∧ s.utf8ByteSize = s.length
    ∧ rustStrLen spacesLit = 3
    ∧ spacesLit.length = 3
    ∧ (∀ c ∈ spacesLit.data, c = ' ' ∧ c.toNat < 128) :=
  ⟨rfl, utf8ByteSize_eq_length_of_ascii s h, by decide, by decide, by decide⟩

/-- Witness for C10 at the concrete literal "   " of the variables
example. -/
theorem len_is_utf8_byte_length_witness :
    rustStrLen spacesLit = spacesLit.utf8ByteSize
    ∧ spacesLit.utf8ByteSize = spacesLit.length
    ∧ rustStrLen spacesLit = 3
    ∧ spacesLit.length = 3
    ∧ (∀ c ∈ spacesLit.data, c = ' ' ∧ c.toNat < 128) :=
  len_is_utf8_byte_length spacesLit (by decide)
